import Mathlib

/-!
Shallow embedding of `src/app.py` — a guided bar-chart assistant.
The rules engine is embedded faithfully: Python dynamic count values
become `PyVal`, Python `int(x)` coercion becomes `pyInt`, and the
Streamlit session record becomes `SessionState`.  Machine arithmetic
is exact (Python integers are arbitrary precision); a Python float is
modelled by its exact rational value, and `round` on the dyadic value
`maxv / 8` is Python's half-to-even rounding, which is exact for this
denominator.  String primitives (`strip`, `lower`, substring `in`) are
defined structurally over the character list so that every definition
evaluates by kernel reduction.
-/

namespace BarApp

/-- A dynamic Python value as it can appear in the `counts` column:
an integer, a float (modelled by its exact rational value `num / den`,
`den > 0`; every Python float is such a rational), or a string. -/
inductive PyVal where
  | vint : Int → PyVal
  | vfloat : Int → Nat → PyVal
  | vstr : String → PyVal
deriving DecidableEq, Repr

/-- Python `str.strip()` on the character list: drop leading and trailing
whitespace. -/
def trimChars (cs : List Char) : List Char :=
  ((cs.dropWhile Char.isWhitespace).reverse.dropWhile Char.isWhitespace).reverse

/-- Python `str.strip()`. -/
def strTrim (s : String) : String := String.mk (trimChars s.data)

/-- Python `str.lower()` (ASCII case folding; the banned phrases and all
labels exercised here are ASCII-cased). -/
def strLower (s : String) : String := String.mk (s.data.map Char.toLower)

/-- Digit-string value, `none` when empty or a non-digit is present. -/
def digitsVal (cs : List Char) : Option Nat :=
  if cs ≠ [] ∧ cs.all Char.isDigit then
    some (cs.foldl (fun n c => n * 10 + (c.toNat - 48)) 0)
  else none

/-- Python `int(s)` on a string: optional surrounding whitespace, an
optional sign, then decimal digits; anything else raises (here: `none`). -/
def parseIntStr (s : String) : Option Int :=
  match trimChars s.data with
  | '-' :: rest => (digitsVal rest).map (fun n => -(n : Int))
  | '+' :: rest => (digitsVal rest).map (fun n => (n : Int))
  | cs => (digitsVal cs).map (fun n => (n : Int))

/-- Python `int(x)` on a dynamic value (truncation toward zero on a
float); `none` models the raised error that callers catch. -/
def pyInt : PyVal → Option Int
  | .vint n => some n
  | .vfloat num den => some (num.tdiv den)
  | .vstr s => parseIntStr s

/-- Substring test on character lists (structural recursion on the
haystack). -/
def infixOfChars (needle : List Char) : List Char → Bool
  | [] => needle.isEmpty
  | c :: rest => needle.isPrefixOf (c :: rest) || infixOfChars needle rest

/-- Python `needle in hay` on strings: substring containment. -/
def pyInStr (needle hay : String) : Bool := infixOfChars needle.data hay.data

/-- The fixed banned-phrase list `BANNED_PHRASES` of `app.py`. -/
def BANNED_PHRASES : List String :=
  ["fais le graphique", "trace le graphique", "tracer", "donne le code",
   "code complet", "plot", "matplotlib", "ggplot", "fais-le à ma place"]

/-- The fixed refusal message returned by `guardrails` (the two adjacent
Python string literals concatenated). -/
def refusalMsg : String :=
  "Je ne peux pas produire le diagramme ni fournir du code de tracé. " ++
  "Je peux t'aider à le construire, étape par étape."

/-- Function `guardrails(text)`: lowercase the text, refuse when a banned phrase
occurs as a substring, otherwise return `None`. -/
def guardrails (text : String) : Option String :=
  let lower := strLower text
  if BANNED_PHRASES.any (fun b => pyInStr b lower) then some refusalMsg
  else none

/-- Issue message for duplicate / case-variant categories. -/
def dupMsg : String :=
  "Catégories en doublon ou variantes d'orthographe : harmonise la casse/accents."

/-- Issue message for counts that fail integer coercion. -/
def nonIntMsg : String :=
  "Effectifs non entiers : assure-toi que chaque effectif est un entier."

/-- Issue message for negative counts. -/
def negMsg : String :=
  "Effectifs négatifs détectés : vérifie la saisie."

/-- Issue message for an all-zero / empty sum. -/
def nullSumMsg : String :=
  "Somme nulle : vérifie que les effectifs ne sont pas vides ou tous nuls."

/-- The statistics dictionary returned by `analyze_data`. -/
structure Stats where
  total : Int
  max : Int
  suggested_step : Int
  rounded_top : Int
deriving DecidableEq, Repr

/-- Python `round(m / 8)`: `m / 8` is a dyadic rational held exactly by the
float, and `round` ties to the even integer (banker's rounding). -/
def pyRound8 (m : Int) : Int :=
  let q := m.fdiv 8
  let r := m - 8 * q
  if r < 4 then q
  else if r = 4 then (if q % 2 = 0 then q else q + 1)
  else q + 1

/-- Python `max(l)` on a nonempty list of integers (the `[]` value 0 is
never used: the caller guards on nonemptiness). -/
def listMax : List Int → Int
  | [] => 0
  | x :: xs => xs.foldl max x

/-- The list comprehension `[c.strip() for c in categories if str(c).strip() != ""]`. -/
def uniqueLabels (categories : List String) : List String :=
  (categories.map strTrim).filter (fun s => s ≠ "")

/-- Check `len(set(map(lower, unique))) != len(unique)`: the lowered labels
contain a repetition. -/
def hasDupLower (labels : List String) : Bool :=
  (labels.map strLower).dedup.length != labels.length

/-- The guarded comprehension `ints = [int(x) for x in counts]`: all
coercions succeed and yield the integer list, or the first failure
raises and the whole pass yields nothing. -/
def coerceInts : List PyVal → Option (List Int)
  | [] => some []
  | v :: vs =>
      match pyInt v, coerceInts vs with
      | some n, some ns => some (n :: ns)
      | _, _ => none

/-- Function `analyze_data(categories, counts)` from `app.py`, line by line:
duplicate-label check, integer coercion of every count (one failure
aborts the whole coercion, as the `try` around the comprehension does),
negative / null-sum checks on success, then the scale suggestion. -/
def analyze_data (categories : List String) (counts : List PyVal) :
    List String × Stats :=
  let unique := uniqueLabels categories
  let issues0 : List String := if hasDupLower unique then [dupMsg] else []
  let coerced := coerceInts counts
  let issues1 := match coerced with
    | some _ => issues0
    | none => issues0 ++ [nonIntMsg]
  let ints := match coerced with
    | some l => l
    | none => []
  let issues2 :=
    if ints = [] then issues1
    else
      (issues1 ++ (if ints.any (fun v => decide (v < 0)) then [negMsg] else []))
        ++ (if ints.sum = 0 then [nullSumMsg] else [])
  let total : Int := if ints = [] then 0 else ints.sum
  let maxv : Int := if ints = [] then 0 else listMax ints
  let suggested_step : Int := if maxv = 0 then 1 else max 1 (pyRound8 maxv)
  let rounded_top : Int :=
    if maxv = 0 then 10 else (maxv.fdiv suggested_step + 1) * suggested_step
  (issues2,
   { total := total, max := maxv,
     suggested_step := suggested_step, rounded_top := rounded_top })

/-- The `SessionState` dataclass of `app.py`, with its field defaults.
`scale_choice` is the Python dict keyed by `"step"` / `"top"`; `checklist`
is the rubric dict, read through `.get` with a falsy default, hence a
total boolean map here. -/
structure SessionState where
  step : Int := 1
  hints_given : Int := 0
  goal : Option String := none
  «variable» : Option String := none
  var_type : Option String := none
  categories : List String := []
  counts : List PyVal := []
  scale_choice : List (String × Int) := []
  scale_justif : Option String := none
  checklist : String → Bool := fun _ => false
  improvement : Option String := none
  reflection : Option String := none

/-- Constant `MAX_HINTS_PER_STEP` from `app.py`. -/
def MAX_HINTS_PER_STEP : Int := 1

/-- The generic fallback returned once the per-step hint cap is reached. -/
def fallbackHint : String :=
  "Teste d'abord ta propre idée, puis reviens avec ton choix justifié."

/-- The topic dispatch of `give_hint` (the four return branches below the
counter increment). -/
def topicHint (topic : String) : String :=
  if topic = "scale" then
    "Indice : vise ~8 à 12 graduations régulières sur l'axe vertical. " ++
    "Choisis un pas qui dépasse légèrement l'effectif max quand on multiplie par le nombre de graduations."
  else if topic = "labels" then
    "Indice : un bon titre = [verbe d'action] + [variable] + [population] + [contexte/année]."
  else if topic = "data" then
    "Indice : liste d'abord les catégories uniques, puis additionne les effectifs de catégories homonymes (casse/accents)."
  else
    "Indice : vérifie la cohérence des totaux et l'uniformité des catégories."

/-- Function `give_hint(state, topic)`: the Python function mutates
`state.hints_given`; here it returns the hint text together with the
updated state. -/
def give_hint (state : SessionState) (topic : String) : String × SessionState :=
  if MAX_HINTS_PER_STEP ≤ state.hints_given then (fallbackHint, state)
  else (topicHint topic, { state with hints_given := state.hints_given + 1 })

/-- Callback `reset_hints()`: the `on_click` callback of every validate button. -/
def reset_hints (s : SessionState) : SessionState := { s with hints_given := 0 }

/-- The failure condition of the step-2 validate body:
`len(categories) < 2 or len(categories) != len(counts)`. -/
def step2_guard_fails (categories : List String) (counts : List PyVal) : Bool :=
  decide (categories.length < 2) || categories.length != counts.length

/-- Python dict `.get(key, default)` on the scale-choice dict. -/
def dictGet (d : List (String × Int)) (k : String) (dflt : Int) : Int :=
  match d.lookup k with
  | some v => v
  | none => dflt

/-- Python truthiness of the optional justification text (`None` and the
empty string are falsy). -/
def justifTruthy : Option String → Bool
  | none => false
  | some s => s != ""

/-- The failure condition of the step-3 validate body:
`not engine.scale_justif or engine.scale_choice.get("top", 0) <= stats.get("max", 0)`. -/
def step3_guard_fails (s : SessionState) (stats : Stats) : Bool :=
  !(justifTruthy s.scale_justif) || decide (dictGet s.scale_choice "top" 0 ≤ stats.max)

/-- Clicking "Valider l'étape" at step 2.  Streamlit runs the `on_click`
callback (`reset_hints`) before the script body, so the hint counter is
reset first; then the guard is checked and, on success, `step` is set
to 3. -/
def validate_step2_click (s : SessionState) : SessionState :=
  let s0 := reset_hints s
  if step2_guard_fails s0.categories s0.counts then s0 else { s0 with step := 3 }

/-- Clicking "Valider l'étape" at step 3: `reset_hints` runs first, the
script recomputes `stats` via `analyze_data`, then the guard is checked
and, on success, `step` is set to 4. -/
def validate_step3_click (s : SessionState) : SessionState :=
  let s0 := reset_hints s
  let stats := (analyze_data s0.categories s0.counts).2
  if step3_guard_fails s0 stats then s0 else { s0 with step := 4 }

/-- One row of the step-2 data editor: the category cell after Python
`str(...)` (the code applies `str` before `strip`), and the raw count
cell. -/
structure Row where
  cat : String
  eff : PyVal

/-- Python `v == 0` on a dynamic cell value (an int or float compares to
0 by value; a string never equals 0). -/
def pyEqZero : PyVal → Bool
  | .vint n => n == 0
  | .vfloat num _ => num == 0
  | .vstr _ => false

/-- Python `v == ""` on a dynamic cell value. -/
def pyEqEmptyStr : PyVal → Bool
  | .vstr s => s == ""
  | _ => false

/-- The step-2 extraction loop: skip a row whose stripped category is
empty and whose count cell is 0 or empty; otherwise append the stripped
category and, when `int(v)` succeeds, the coerced count — else the raw
value, left for the validator. -/
def extract_rows : List Row → List String × List PyVal
  | [] => ([], [])
  | r :: rs =>
      let c := strTrim r.cat
      let rest := extract_rows rs
      if c == "" && (pyEqZero r.eff || pyEqEmptyStr r.eff) then rest
      else
        (c :: rest.1,
         (match pyInt r.eff with
          | some n => PyVal.vint n
          | none => r.eff) :: rest.2)

/-- Rendering of an optional text field inside a Python f-string
(`None` prints as `None`). -/
def optStr : Option String → String
  | none => "None"
  | some s => s

/-- Rendering of a count cell inside a Python f-string.  A float prints
as its exact value `num/den`; in a completed session every count is an
integer, so this constructor never reaches the report. -/
def pyValStr : PyVal → String
  | .vint n => toString n
  | .vfloat num den => toString num ++ "/" ++ toString den
  | .vstr s => s

/-- Expression `engine.scale_choice.get(key, '')` rendered in the report line: the
integer when present, the empty string otherwise. -/
def dictGetStr (d : List (String × Int)) (k : String) : String :=
  match d.lookup k with
  | some v => toString v
  | none => ""

/-- The checklist rendering dict of step 5, in its fixed insertion
order. -/
def checklistItems : List (String × String) :=
  [("title", "Titre"), ("x", "Axe X"), ("y", "Axe Y"), ("bars", "Barres"),
   ("scale", "Échelle"), ("source", "Source"), ("legend", "Légende")]

/-- The closing reminder line of the report. -/
def finalReminder : String :=
  "(Rappel : le graphique doit être tracé par l'élève dans l'outil de son choix.)"

/-- The `report_lines` list built at step 5, line by line as in
`app.py`. -/
def report_lines (s : SessionState) : List String :=
  ["# Rapport d'auto-contrôle — Diagramme en barres",
   "",
   "Question d'étude : " ++ optStr s.goal,
   "Variable : " ++ optStr s.«variable» ++ "  ·  Nature : " ++ optStr s.var_type,
   "",
   "Catégories et effectifs :"]
  ++ (s.categories.zip s.counts).map
      (fun p => "- " ++ p.1 ++ " : " ++ pyValStr p.2)
  ++ ["",
      "Échelle choisie : pas = " ++ dictGetStr s.scale_choice "step" ++
        ", sommet = " ++ dictGetStr s.scale_choice "top",
      "Justification : " ++ optStr s.scale_justif,
      "",
      "Checklist :"]
  ++ checklistItems.map
      (fun p => "- " ++ p.2 ++ " : " ++ (if s.checklist p.1 then "OK" else "À revoir"))
  ++ ["",
      "Amélioration prioritaire : " ++ optStr s.improvement,
      "",
      "Réflexion finale : " ++ optStr s.reflection,
      "",
      finalReminder]

/-- Assembly `report = "\n".join(report_lines)`. -/
def build_report (s : SessionState) : String :=
  String.intercalate "\n" (report_lines s)

/-- A session sitting at step 2 with two well-formed rows. -/
def s2demo : SessionState :=
  { step := 2, categories := ["A", "B"], counts := [PyVal.vint 1, PyVal.vint 2] }

/-- A session sitting at step 3 with a justification and a top above the
maximum count. -/
def s3demo : SessionState :=
  { step := 3, categories := ["A", "B"], counts := [PyVal.vint 1, PyVal.vint 2],
    scale_choice := [("step", 1), ("top", 5)], scale_justif := some "ok" }

/-- A session at step 2 whose data fails the step-2 guard (one category)
and whose fields fail the step-3 guard too (no justification), with a
hint already consumed. -/
def s2fail : SessionState :=
  { step := 2, hints_given := 1, categories := ["A"], counts := [PyVal.vint 1] }

/- ------------------------------------------------------------------ -/
/- Helper lemmas -/
/- ------------------------------------------------------------------ -/

theorem coerceInts_eq_none_of_mem {counts : List PyVal} {v : PyVal}
    (hv : v ∈ counts) (hn : pyInt v = none) : coerceInts counts = none := by
  induction counts with
  | nil => cases hv
  | cons w ws ih =>
      rcases List.mem_cons.mp hv with h | h
      · subst h
        simp [coerceInts, hn]
      · have := ih h
        simp [coerceInts, this]

theorem hasDupLower_eq_false {labels : List String}
    (h : (labels.map strLower).Nodup) : hasDupLower labels = false := by
  have hd : (labels.map strLower).dedup = labels.map strLower :=
    List.dedup_eq_self.mpr h
  simp [hasDupLower, hd]

theorem sum_ne_nil {ints : List Int} (h : 0 < ints.sum) : ints ≠ [] := by
  intro he
  subst he
  simp at h

theorem any_neg_eq_false {ints : List Int} (h : ∀ v ∈ ints, 0 ≤ v) :
    (ints.any fun v => decide (v < 0)) = false := by
  simp only [List.any_eq_false, decide_eq_true_eq, not_lt]
  exact h

theorem validate_step2_click_eq (s : SessionState) :
    validate_step2_click s =
      (if step2_guard_fails s.categories s.counts then reset_hints s
       else { reset_hints s with step := 3 }) := rfl

theorem validate_step3_click_eq (t : SessionState) :
    validate_step3_click t =
      (if step3_guard_fails t (analyze_data t.categories t.counts).2 then reset_hints t
       else { reset_hints t with step := 4 }) := rfl

theorem analyze_data_scale_shape (categories : List String) (counts : List PyVal) :
    (analyze_data categories counts).2.suggested_step =
      (if (analyze_data categories counts).2.max = 0 then 1
       else max 1 (pyRound8 (analyze_data categories counts).2.max)) ∧
    (analyze_data categories counts).2.rounded_top =
      (if (analyze_data categories counts).2.max = 0 then 10
       else ((analyze_data categories counts).2.max.fdiv
               (analyze_data categories counts).2.suggested_step + 1) *
             (analyze_data categories counts).2.suggested_step) :=
  ⟨rfl, rfl⟩

/- ------------------------------------------------------------------ -/
/- Claim theorems -/
/- ------------------------------------------------------------------ -/

/-- C1: for every pair of category and count lists in which every count
coerces to a non-negative integer, the counts sum to a strictly positive
total, and the trimmed non-empty labels are pairwise distinct under
case-insensitive comparison, `analyze_data` returns an empty issues
list. -/
theorem analyze_data_clean_inputs_no_issues
    (categories : List String) (counts : List PyVal) (ints : List Int)
    (hco : coerceInts counts = some ints)
    (hnn : ∀ v ∈ ints, 0 ≤ v)
    (hpos : 0 < ints.sum)
    (hnd : ((uniqueLabels categories).map strLower).Nodup) :
    (analyze_data categories counts).1 = [] := by
  have h1 := hasDupLower_eq_false hnd
  have h2 := sum_ne_nil hpos
  have h3 := any_neg_eq_false hnn
  have h4 : ¬ ints.sum = 0 := by omega
  simp [analyze_data, hco, h1, h2, h3, h4]

/-- Witness for C1 at a concrete clean input. -/
theorem analyze_data_clean_inputs_no_issues_witness :
    coerceInts [PyVal.vint 1, PyVal.vint 2] = some [1, 2] ∧
    (0 : Int) < List.sum [1, 2] ∧
    (analyze_data ["A", "B"] [PyVal.vint 1, PyVal.vint 2]).1 = [] :=
  ⟨by decide, by decide,
   analyze_data_clean_inputs_no_issues ["A", "B"] [PyVal.vint 1, PyVal.vint 2]
     [1, 2] (by decide) (by decide) (by decide) (by decide)⟩

/-- C2: the returned statistics satisfy the scale-suggestion formulas:
for a positive maximum, `suggestedStep = max(1, round(max / 8))`,
`roundedTop = (floor(max / suggestedStep) + 1) * suggestedStep`, and the
rounded top strictly exceeds the maximum; for a zero maximum the
fallback is step 1 and top 10; and max = 37 yields step 5 and top 40. -/
theorem analyze_data_scale_spec (categories : List String) (counts : List PyVal) :
    (0 < (analyze_data categories counts).2.max →
      (analyze_data categories counts).2.suggested_step =
        max 1 (pyRound8 (analyze_data categories counts).2.max) ∧
      (analyze_data categories counts).2.rounded_top =
        ((analyze_data categories counts).2.max.fdiv
           (analyze_data categories counts).2.suggested_step + 1) *
        (analyze_data categories counts).2.suggested_step ∧
      (analyze_data categories counts).2.max <
        (analyze_data categories counts).2.rounded_top) ∧
    ((analyze_data categories counts).2.max = 0 →
      (analyze_data categories counts).2.suggested_step = 1 ∧
      (analyze_data categories counts).2.rounded_top = 10) ∧
    (analyze_data ["A"] [PyVal.vint 37]).2 =
      { total := 37, max := 37, suggested_step := 5, rounded_top := 40 } := by
  obtain ⟨hs, ht⟩ := analyze_data_scale_shape categories counts
  refine ⟨?_, ?_, by decide⟩
  · intro hpos
    have hne : ¬ (analyze_data categories counts).2.max = 0 := by omega
    rw [if_neg hne] at hs ht
    have h1 : (1 : Int) ≤ max 1 (pyRound8 (analyze_data categories counts).2.max) :=
      le_max_left _ _
    have hstep : 0 < (analyze_data categories counts).2.suggested_step := by
      rw [hs]; omega
    exact ⟨hs, ht, ht ▸ Int.lt_fdiv_add_one_mul_self _ hstep⟩
  · intro hzero
    rw [if_pos hzero] at hs ht
    exact ⟨hs, ht⟩

/-- Witness for C2: both branches discharged at concrete inputs
(max = 37, and the empty input with max = 0). -/
theorem analyze_data_scale_spec_witness :
    0 < (analyze_data ["A"] [PyVal.vint 37]).2.max ∧
    ((analyze_data ["A"] [PyVal.vint 37]).2.suggested_step =
       max 1 (pyRound8 (analyze_data ["A"] [PyVal.vint 37]).2.max) ∧
     (analyze_data ["A"] [PyVal.vint 37]).2.rounded_top =
       ((analyze_data ["A"] [PyVal.vint 37]).2.max.fdiv
          (analyze_data ["A"] [PyVal.vint 37]).2.suggested_step + 1) *
       (analyze_data ["A"] [PyVal.vint 37]).2.suggested_step ∧
     (analyze_data ["A"] [PyVal.vint 37]).2.max <
       (analyze_data ["A"] [PyVal.vint 37]).2.rounded_top) ∧
    (analyze_data [] []).2.max = 0 ∧
    ((analyze_data [] []).2.suggested_step = 1 ∧
     (analyze_data [] []).2.rounded_top = 10) :=
  ⟨by decide,
   (analyze_data_scale_spec ["A"] [PyVal.vint 37]).1 (by decide),
   by decide,
   (analyze_data_scale_spec [] []).2.1 (by decide)⟩

/-- C5: when some count fails integer coercion, `analyze_data` emits the
non-integer issue, raises nothing (it is a total function), and returns
the zeroed statistics total = 0, max = 0, step = 1, top = 10. -/
theorem analyze_data_non_integer_degrades
    (categories : List String) (counts : List PyVal) (v : PyVal)
    (hv : v ∈ counts) (hn : pyInt v = none) :
    nonIntMsg ∈ (analyze_data categories counts).1 ∧
    (analyze_data categories counts).2 =
      { total := 0, max := 0, suggested_step := 1, rounded_top := 10 } := by
  have hco := coerceInts_eq_none_of_mem hv hn
  constructor
  · simp [analyze_data, hco]
  · simp [analyze_data, hco]

/-- Witness for C5 at the input of the spec example. -/
theorem analyze_data_non_integer_degrades_witness :
    PyVal.vstr "x" ∈ [PyVal.vstr "x", PyVal.vint 2] ∧
    pyInt (PyVal.vstr "x") = none ∧
    (nonIntMsg ∈ (analyze_data ["A", "B"] [PyVal.vstr "x", PyVal.vint 2]).1 ∧
     (analyze_data ["A", "B"] [PyVal.vstr "x", PyVal.vint 2]).2 =
       { total := 0, max := 0, suggested_step := 1, rounded_top := 10 }) :=
  ⟨by decide, by decide,
   analyze_data_non_integer_degrades ["A", "B"] [PyVal.vstr "x", PyVal.vint 2]
     (PyVal.vstr "x") (by decide) (by decide)⟩

/-- C10: when every count is accepted by the coercion — non-integral
floats included, truncated toward zero — no non-integer issue is
emitted and total and max come from the coerced values; in particular
`int(2.5) = 2`. -/
theorem analyze_data_coercion_spec
    (categories : List String) (counts : List PyVal) (ints : List Int)
    (hco : coerceInts counts = some ints) :
    nonIntMsg ∉ (analyze_data categories counts).1 ∧
    (analyze_data categories counts).2.total = ints.sum ∧
    (analyze_data categories counts).2.max = (if ints = [] then 0 else listMax ints) ∧
    pyInt (PyVal.vfloat 5 2) = some 2 := by
  have d1 : ¬ (nonIntMsg = dupMsg) := by decide
  have d2 : ¬ (nonIntMsg = negMsg) := by decide
  have d3 : ¬ (nonIntMsg = nullSumMsg) := by decide
  refine ⟨?_, ?_, ?_, by decide⟩
  · simp only [analyze_data, hco]
    split_ifs <;> simp [d1, d2, d3]
  · simp only [analyze_data, hco]
    split_ifs with h <;> simp [h]
  · simp [analyze_data, hco]

/-- Witness for C10 with a float that truncates. -/
theorem analyze_data_coercion_spec_witness :
    coerceInts [PyVal.vfloat 5 2, PyVal.vint 3] = some [2, 3] ∧
    (nonIntMsg ∉ (analyze_data ["A", "B"] [PyVal.vfloat 5 2, PyVal.vint 3]).1 ∧
     (analyze_data ["A", "B"] [PyVal.vfloat 5 2, PyVal.vint 3]).2.total = List.sum [2, 3] ∧
     (analyze_data ["A", "B"] [PyVal.vfloat 5 2, PyVal.vint 3]).2.max =
       (if ([2, 3] : List Int) = [] then 0 else listMax [2, 3]) ∧
     pyInt (PyVal.vfloat 5 2) = some 2) :=
  ⟨by decide,
   analyze_data_coercion_spec ["A", "B"] [PyVal.vfloat 5 2, PyVal.vint 3]
     [2, 3] (by decide)⟩

/-- C7: `guardrails` returns the fixed refusal message exactly when the
lowercased text contains some banned phrase as a substring, and `none`
otherwise (it is a pure function); in particular on the two spec
inputs of the testable properties. -/
theorem guardrails_spec (text : String) :
    (guardrails text = some refusalMsg ↔
      ∃ b ∈ BANNED_PHRASES, pyInStr b (strLower text) = true) ∧
    (guardrails text = none ↔
      ¬ ∃ b ∈ BANNED_PHRASES, pyInStr b (strLower text) = true) ∧
    guardrails "please plot this for me" = some refusalMsg ∧
    guardrails "what counts as a good title?" = none := by
  have key : (BANNED_PHRASES.any fun b => pyInStr b (strLower text)) = true ↔
      ∃ b ∈ BANNED_PHRASES, pyInStr b (strLower text) = true := List.any_eq_true
  by_cases h : (BANNED_PHRASES.any fun b => pyInStr b (strLower text)) = true
  · refine ⟨⟨fun _ => key.mp h, fun _ => ?_⟩,
      ⟨fun hg => ?_, fun hne => absurd (key.mp h) hne⟩, by decide, by decide⟩
    · simp [guardrails, h]
    · simp [guardrails, h] at hg
  · have hnot : ¬ ∃ b ∈ BANNED_PHRASES, pyInStr b (strLower text) = true :=
      fun he => h (key.mpr he)
    refine ⟨⟨fun hg => ?_, fun he => absurd he hnot⟩,
      ⟨fun _ => hnot, fun _ => ?_⟩, by decide, by decide⟩
    · simp [guardrails, h] at hg
    · simp [guardrails, h]

/-- C3: a validate click advances the step from n to n + 1 exactly when
the guard for step n holds (step 2: at least two categories and equal
lengths; step 3: non-empty justification and chosen top strictly above
the computed max), and stays at n when the guard fails. -/
theorem validate_click_advances (s t : SessionState)
    (h2 : s.step = 2) (h3 : t.step = 3) :
    ((validate_step2_click s).step = s.step + 1 ↔
      2 ≤ s.categories.length ∧ s.categories.length = s.counts.length) ∧
    ((validate_step2_click s).step ≠ s.step + 1 →
      (validate_step2_click s).step = s.step) ∧
    ((validate_step3_click t).step = t.step + 1 ↔
      justifTruthy t.scale_justif = true ∧
      (analyze_data t.categories t.counts).2.max < dictGet t.scale_choice "top" 0) ∧
    ((validate_step3_click t).step ≠ t.step + 1 →
      (validate_step3_click t).step = t.step) := by
  have g2 : step2_guard_fails s.categories s.counts = false ↔
      2 ≤ s.categories.length ∧ s.categories.length = s.counts.length := by
    simp [step2_guard_fails, Nat.not_lt]
  have g3t : step3_guard_fails t (analyze_data t.categories t.counts).2 = false ↔
      justifTruthy t.scale_justif = true ∧
      (analyze_data t.categories t.counts).2.max < dictGet t.scale_choice "top" 0 := by
    simp [step3_guard_fails, Int.not_le]
  refine ⟨?_, ?_, ?_, ?_⟩
  · constructor
    · intro hadv
      rw [← g2]
      by_contra hgf
      have hb : step2_guard_fails s.categories s.counts = true := by
        cases hcond : step2_guard_fails s.categories s.counts
        · exact absurd hcond hgf
        · rfl
      have hres : (validate_step2_click s).step = s.step := by
        rw [validate_step2_click_eq, hb]; simp [reset_hints]
      rw [hres] at hadv; omega
    · intro hguard
      have hb : step2_guard_fails s.categories s.counts = false := g2.mpr hguard
      have hres : (validate_step2_click s).step = 3 := by
        rw [validate_step2_click_eq, hb]; simp [reset_hints]
      omega
  · intro hne
    cases hb : step2_guard_fails s.categories s.counts with
    | true => rw [validate_step2_click_eq, hb]; simp [reset_hints]
    | false =>
        have hres : (validate_step2_click s).step = 3 := by
          rw [validate_step2_click_eq, hb]; simp [reset_hints]
        exact absurd (by omega : (validate_step2_click s).step = s.step + 1) hne
  · constructor
    · intro hadv
      rw [← g3t]
      by_contra hgf
      have hb : step3_guard_fails t (analyze_data t.categories t.counts).2 = true := by
        cases hcond : step3_guard_fails t (analyze_data t.categories t.counts).2
        · exact absurd hcond hgf
        · rfl
      have hres : (validate_step3_click t).step = t.step := by
        rw [validate_step3_click_eq, hb]; simp [reset_hints]
      rw [hres] at hadv; omega
    · intro hguard
      have hb : step3_guard_fails t (analyze_data t.categories t.counts).2 = false :=
        g3t.mpr hguard
      have hres : (validate_step3_click t).step = 4 := by
        rw [validate_step3_click_eq, hb]; simp [reset_hints]
      omega
  · intro hne
    cases hb : step3_guard_fails t (analyze_data t.categories t.counts).2 with
    | true => rw [validate_step3_click_eq, hb]; simp [reset_hints]
    | false =>
        have hres : (validate_step3_click t).step = 4 := by
          rw [validate_step3_click_eq, hb]; simp [reset_hints]
        exact absurd (by omega : (validate_step3_click t).step = t.step + 1) hne

/-- Witness for C3 at concrete passing sessions. -/
theorem validate_click_advances_witness :
    s2demo.step = 2 ∧ s3demo.step = 3 ∧
    ((validate_step2_click s2demo).step = s2demo.step + 1 ↔
      2 ≤ s2demo.categories.length ∧
      s2demo.categories.length = s2demo.counts.length) :=
  ⟨rfl, rfl, (validate_click_advances s2demo s3demo rfl rfl).1⟩

/-- C4 counterexample: a failed step-2 validation still resets the hint
counter.  From `s2fail` (one category, so the guard fails, and one hint
already consumed) the click leaves the step at 2 but sets `hints_given`
from 1 to 0 — the `on_click` callback runs before the guard is checked,
refuting "reset ... never on a failed validation". -/
theorem validate_click_hint_reset_cex :
    (validate_step2_click s2fail).step = s2fail.step ∧
    s2fail.hints_given = 1 ∧
    (validate_step2_click s2fail).hints_given = 0 :=
  ⟨rfl, rfl, rfl⟩

/-- C4 amended: on a validate click whose guard fails, the step and
every field other than the hint counter are unchanged (the result is
exactly `reset_hints` of the state) — but `hintsGiven` is reset to 0 on
every click of the validate button, failed validations included,
because the reset is attached to the button callback rather than to a
successful advance. -/
theorem validate_click_failure_resets_hints (s : SessionState)
    (h2 : step2_guard_fails s.categories s.counts = true)
    (h3 : step3_guard_fails s (analyze_data s.categories s.counts).2 = true) :
    validate_step2_click s = reset_hints s ∧
    validate_step3_click s = reset_hints s ∧
    (validate_step2_click s).step = s.step ∧
    (validate_step3_click s).step = s.step ∧
    (validate_step2_click s).hints_given = 0 ∧
    (validate_step3_click s).hints_given = 0 := by
  have e2 : validate_step2_click s = reset_hints s := by
    rw [validate_step2_click_eq, h2]; simp
  have e3 : validate_step3_click s = reset_hints s := by
    rw [validate_step3_click_eq, h3]; simp
  exact ⟨e2, e3, by rw [e2]; rfl, by rw [e3]; rfl, by rw [e2]; rfl, by rw [e3]; rfl⟩

/-- Witness for C4's amended statement at a concrete state failing both
guards with a hint already consumed. -/
theorem validate_click_failure_resets_hints_witness :
    step2_guard_fails s2fail.categories s2fail.counts = true ∧
    step3_guard_fails s2fail (analyze_data s2fail.categories s2fail.counts).2 = true ∧
    (validate_step2_click s2fail = reset_hints s2fail ∧
     validate_step3_click s2fail = reset_hints s2fail ∧
     (validate_step2_click s2fail).step = s2fail.step ∧
     (validate_step3_click s2fail).step = s2fail.step ∧
     (validate_step2_click s2fail).hints_given = 0 ∧
     (validate_step3_click s2fail).hints_given = 0) :=
  ⟨by decide, by decide,
   validate_click_failure_resets_hints s2fail (by decide) (by decide)⟩

/-- C6: from a state with no hint consumed, the first `give_hint` call
returns the topic-specific hint and sets the counter to 1; a second
call in the same step returns the generic fallback without changing the
state; the topic hint and the fallback differ; and the counter never
exceeds the cap of 1 within a step. -/
theorem give_hint_cap_behavior (s u : SessionState) (t1 t2 t3 : String)
    (h : s.hints_given = 0) (hu : u.hints_given ≤ 1) :
    (give_hint s t1).1 = topicHint t1 ∧
    (give_hint s t1).2.hints_given = 1 ∧
    (give_hint (give_hint s t1).2 t2).1 = fallbackHint ∧
    (give_hint (give_hint s t1).2 t2).2 = (give_hint s t1).2 ∧
    topicHint t1 ≠ fallbackHint ∧
    (give_hint u t3).2.hints_given ≤ 1 := by
  have hcond : ¬ MAX_HINTS_PER_STEP ≤ s.hints_given := by
    rw [h]; decide
  have hfirst : give_hint s t1 =
      (topicHint t1, { s with hints_given := s.hints_given + 1 }) := by
    simp [give_hint, hcond]
  have hone : (give_hint s t1).2.hints_given = 1 := by
    rw [hfirst]; simp [h]
  have hcond2 : MAX_HINTS_PER_STEP ≤ (give_hint s t1).2.hints_given := by
    rw [hone]; decide
  have hgen : ∀ w : SessionState, MAX_HINTS_PER_STEP ≤ w.hints_given →
      give_hint w t2 = (fallbackHint, w) := by
    intro w hw
    simp [give_hint, hw]
  have hsecond : give_hint (give_hint s t1).2 t2 = (fallbackHint, (give_hint s t1).2) :=
    hgen (give_hint s t1).2 hcond2
  have hdistinct : topicHint t1 ≠ fallbackHint := by
    unfold topicHint
    split_ifs <;> decide
  have hcap : (give_hint u t3).2.hints_given ≤ 1 := by
    by_cases hc : MAX_HINTS_PER_STEP ≤ u.hints_given
    · simp [give_hint, hc]; exact hu
    · simp [give_hint, hc]
      simp [MAX_HINTS_PER_STEP] at hc
      omega
  exact ⟨by rw [hfirst], hone, by rw [hsecond], by rw [hsecond], hdistinct, hcap⟩

/-- Witness for C6 at a fresh default session. -/
theorem give_hint_cap_behavior_witness :
    ({ } : SessionState).hints_given = 0 ∧
    (give_hint { } "scale").1 = topicHint "scale" ∧
    (give_hint (give_hint { } "scale").2 "labels").1 = fallbackHint :=
  ⟨rfl,
   (give_hint_cap_behavior { } { } "scale" "labels" "data" rfl (by decide)).1,
   (give_hint_cap_behavior { } { } "scale" "labels" "data" rfl (by decide)).2.2.1⟩

/-- C9: the step-2 extraction loop appends a category and a count
together for every kept row, so the two extracted lists always have
equal length; consequently the step-2 guard reduces to the
two-categories requirement and its length-equality clause can never be
the reason a validation fails. -/
theorem extract_rows_lengths (rows : List Row) :
    (extract_rows rows).1.length = (extract_rows rows).2.length ∧
    (step2_guard_fails (extract_rows rows).1 (extract_rows rows).2 = false ↔
      2 ≤ (extract_rows rows).1.length) := by
  have hlen : (extract_rows rows).1.length = (extract_rows rows).2.length := by
    induction rows with
    | nil => rfl
    | cons r rs ih =>
        by_cases hc :
            (strTrim r.cat == "" && (pyEqZero r.eff || pyEqEmptyStr r.eff)) = true
        · simp [extract_rows, hc, ih]
        · simp [extract_rows, hc, ih]
  refine ⟨hlen, ?_⟩
  simp [step2_guard_fails, hlen, Nat.not_lt]

/-- C8: the assembled report deterministically contains the study
question, the variable and its nature, one line per category/count pair
in input order (a contiguous block), the chosen scale step and top with
the justification, the checklist rendered in the fixed order
title, x, y, bars, scale, source, legend as OK / needs-review, the
priority improvement, the final reflection, and the closing reminder
that the student draws the chart themself — which is the last line. -/
theorem report_contains_required_content (s : SessionState) :
    ("Question d'étude : " ++ optStr s.goal) ∈ report_lines s ∧
    ("Variable : " ++ optStr s.«variable» ++ "  ·  Nature : " ++ optStr s.var_type)
      ∈ report_lines s ∧
    List.IsInfix
      ((s.categories.zip s.counts).map (fun p => "- " ++ p.1 ++ " : " ++ pyValStr p.2))
      (report_lines s) ∧
    ("Échelle choisie : pas = " ++ dictGetStr s.scale_choice "step" ++
      ", sommet = " ++ dictGetStr s.scale_choice "top") ∈ report_lines s ∧
    ("Justification : " ++ optStr s.scale_justif) ∈ report_lines s ∧
    List.IsInfix
      (checklistItems.map
        (fun p => "- " ++ p.2 ++ " : " ++ (if s.checklist p.1 then "OK" else "À revoir")))
      (report_lines s) ∧
    ("Amélioration prioritaire : " ++ optStr s.improvement) ∈ report_lines s ∧
    ("Réflexion finale : " ++ optStr s.reflection) ∈ report_lines s ∧
    (∃ pre, report_lines s = pre ++ [finalReminder]) ∧
    build_report s = String.intercalate "\n" (report_lines s) := by
  refine ⟨?_, ?_, ?_, ?_, ?_, ?_, ?_, ?_, ?_, rfl⟩
  · simp [report_lines]
  · simp [report_lines]
  · exact ⟨["# Rapport d'auto-contrôle — Diagramme en barres", "",
      "Question d'étude : " ++ optStr s.goal,
      "Variable : " ++ optStr s.«variable» ++ "  ·  Nature : " ++ optStr s.var_type,
      "", "Catégories et effectifs :"],
      ["",
       "Échelle choisie : pas = " ++ dictGetStr s.scale_choice "step" ++
         ", sommet = " ++ dictGetStr s.scale_choice "top",
       "Justification : " ++ optStr s.scale_justif,
       "", "Checklist :"]
      ++ checklistItems.map
          (fun p => "- " ++ p.2 ++ " : " ++ (if s.checklist p.1 then "OK" else "À revoir"))
      ++ ["", "Amélioration prioritaire : " ++ optStr s.improvement,
          "", "Réflexion finale : " ++ optStr s.reflection, "", finalReminder],
      by simp [report_lines]⟩
  · simp [report_lines]
  · simp [report_lines]
  · exact ⟨["# Rapport d'auto-contrôle — Diagramme en barres", "",
      "Question d'étude : " ++ optStr s.goal,
      "Variable : " ++ optStr s.«variable» ++ "  ·  Nature : " ++ optStr s.var_type,
      "", "Catégories et effectifs :"]
      ++ (s.categories.zip s.counts).map (fun p => "- " ++ p.1 ++ " : " ++ pyValStr p.2)
      ++ ["",
          "Échelle choisie : pas = " ++ dictGetStr s.scale_choice "step" ++
            ", sommet = " ++ dictGetStr s.scale_choice "top",
          "Justification : " ++ optStr s.scale_justif,
          "", "Checklist :"],
      ["", "Amélioration prioritaire : " ++ optStr s.improvement,
       "", "Réflexion finale : " ++ optStr s.reflection, "", finalReminder],
      by simp [report_lines]⟩
  · simp [report_lines]
  · simp [report_lines]
  · exact ⟨["# Rapport d'auto-contrôle — Diagramme en barres", "",
      "Question d'étude : " ++ optStr s.goal,
      "Variable : " ++ optStr s.«variable» ++ "  ·  Nature : " ++ optStr s.var_type,
      "", "Catégories et effectifs :"]
      ++ (s.categories.zip s.counts).map (fun p => "- " ++ p.1 ++ " : " ++ pyValStr p.2)
      ++ ["",
          "Échelle choisie : pas = " ++ dictGetStr s.scale_choice "step" ++
            ", sommet = " ++ dictGetStr s.scale_choice "top",
          "Justification : " ++ optStr s.scale_justif,
          "", "Checklist :"]
      ++ checklistItems.map
          (fun p => "- " ++ p.2 ++ " : " ++ (if s.checklist p.1 then "OK" else "À revoir"))
      ++ ["", "Amélioration prioritaire : " ++ optStr s.improvement,
          "", "Réflexion finale : " ++ optStr s.reflection, ""],
      by simp [report_lines]⟩

end BarApp
